import Mathlib

/-!
Verification of the command-dispatch and rate-limiting layer of the
Code-Buddy bot: a shallow embedding of the interaction dispatcher
(`processCommandInteraction` and the surrounding default interaction
handler) together with the rate-limit bucket/manager state it drives,
and theorems settling the frozen claims about it.
-/

namespace CB

/-- Modelled from the spec: `RateLimitBucket` (its implementation is not
under `src/`; only the dispatcher that drives it is).  A single scope's
fixed-window counter: `count` consumed units in the current window and
`windowStart` the window's opening timestamp. -/
structure Bucket where
  count : Nat
  windowStart : Nat
  deriving DecidableEq

/-- Modelled from the spec: the window-expiry rule — whenever the current
time reaches `windowStart + windowDurationMs`, `count` resets to 0 and the
window restarts at `now`. -/
def Bucket.refresh (b : Bucket) (windowDurationMs now : Nat) : Bucket :=
  if b.windowStart + windowDurationMs ≤ now then { count := 0, windowStart := now } else b

/-- The view returned by an acquisition: whether the scope is currently
exhausted and how long until the window rolls over, plus the identifier
acquired (the handle a later `consume` would commit against). -/
structure RateLimit where
  id : String
  limited : Bool
  remainingTime : Nat
  deriving DecidableEq

/-- Association-list lookup keyed by strings (the embedding of the map
reads the dispatcher performs). -/
def lookupList {α : Type} (l : List (String × α)) (key : String) : Option α :=
  match l with
  | [] => none
  | (k, v) :: rest => if k = key then some v else lookupList rest key

/-- Association-list update/insert keyed by strings. -/
def updateList {α : Type} (l : List (String × α)) (key : String) (val : α) : List (String × α) :=
  match l with
  | [] => [(key, val)]
  | (k, v) :: rest => if k = key then (key, val) :: rest else (k, v) :: updateList rest key val

/-- Modelled from the spec: `RateLimitManager` — owns identifier → bucket
state for one scope, with the scope's `limit` and `windowDurationMs`. -/
structure RateLimitManager where
  limit : Nat
  windowDurationMs : Nat
  buckets : List (String × Bucket)
  deriving DecidableEq

/-- Modelled from the spec: `acquire(identifier)` — lazily creates the
bucket for a never-seen identifier, applies window expiry, and reports
`limited`/`remainingTime` without consuming quota. -/
def RateLimitManager.acquire (m : RateLimitManager) (id : String) (now : Nat) :
    RateLimitManager × RateLimit :=
  let b0 := (lookupList m.buckets id).getD { count := 0, windowStart := now }
  let b := b0.refresh m.windowDurationMs now
  ({ m with buckets := updateList m.buckets id b },
   { id := id, limited := decide (m.limit ≤ b.count),
     remainingTime := b.windowStart + m.windowDurationMs - now })

/-- Modelled from the spec: `consume()` — applies the same window-expiry
check as `acquire` and then increments `count` by 1. -/
def RateLimitManager.consume (m : RateLimitManager) (id : String) (now : Nat) :
    RateLimitManager :=
  let b0 := (lookupList m.buckets id).getD { count := 0, windowStart := now }
  let b := b0.refresh m.windowDurationMs now
  { m with buckets := updateList m.buckets id { b with count := b.count + 1 } }

/-- `manager?.acquire(id)` — the optional-chained acquisition the
dispatcher performs on a possibly-absent scope manager. -/
def optAcquire (m : Option RateLimitManager) (id : String) (now : Nat) :
    Option RateLimitManager × Option RateLimit :=
  match m with
  | none => (none, none)
  | some mgr =>
    let r := mgr.acquire id now
    (some r.1, some r.2)

/-- `view?.limited` — `undefined` is falsy. -/
def optLimited (v : Option RateLimit) : Bool :=
  match v with
  | none => false
  | some r => r.limited

/-- `view?.remainingTime` (only read under a `limited` view). -/
def optRemaining (v : Option RateLimit) : Nat :=
  match v with
  | none => 0
  | some r => r.remainingTime

/-- `view?.consume()` — a no-op when the acquisition view is absent,
otherwise commits one unit against the view's identifier. -/
def optConsume (m : Option RateLimitManager) (v : Option RateLimit) (now : Nat) :
    Option RateLimitManager :=
  match v with
  | none => m
  | some r =>
    match m with
    | none => none
    | some mgr => some (mgr.consume r.id now)

/-- The per-command rate-limit policy object `command.ratelimit`: up to
three scope managers, exactly as the dispatcher reads them. -/
structure CommandRatelimit where
  global : Option RateLimitManager
  guild : Option RateLimitManager
  user : Option RateLimitManager
  deriving DecidableEq

/-- The scope a rate-limit rejection reports. -/
inductive RLScope where
  | global
  | guild
  | user
  deriving DecidableEq

/-- The user-scope step of the rate-limit block (source lines 232–252):
`if (command.ratelimit.user)` check `UserRateLimit?.limited`, else
`UserRateLimit?.consume()`.  `g`, `gu` are the global/guild manager
states already threaded through; `u` and `uView` come from the up-front
user acquisition. -/
def evalUser (g gu u : Option RateLimitManager) (uView : Option RateLimit) (now : Nat) :
    Option (RLScope × Nat) × CommandRatelimit :=
  if u.isSome then
    if optLimited uView then
      (some (RLScope.user, optRemaining uView), ⟨g, gu, u⟩)
    else
      (none, ⟨g, gu, u⟩)
  else
    (none, ⟨g, gu, optConsume u uView now⟩)

/-- The guild-scope step (source lines 208–231): only in a guild context
is `GuildRateLimit = guildManager?.acquire(guild.id)` performed, then
`if (command.ratelimit.guild)` check `limited`, else consume. -/
def evalGuildUser (g gum u : Option RateLimitManager) (uView : Option RateLimit)
    (gid : Option String) (now : Nat) :
    Option (RLScope × Nat) × CommandRatelimit :=
  match gid with
  | none => evalUser g gum u uView now
  | some gId =>
    let ga := optAcquire gum gId now
    if gum.isSome then
      if optLimited ga.2 then
        (some (RLScope.guild, optRemaining ga.2), ⟨g, ga.1, u⟩)
      else
        evalUser g ga.1 u uView now
    else
      evalUser g (optConsume ga.1 ga.2 now) u uView now

/-- The rate-limit block of `processCommandInteraction` (source lines
177–253): acquire the global view keyed by the command name and the user
view keyed by the caller id up front, then evaluate global, guild, user
in order with strict checks on configured scopes and optional-chained
consumes otherwise. -/
def evalRatelimit (rl : CommandRatelimit) (commandName userId : String)
    (gid : Option String) (now : Nat) :
    Option (RLScope × Nat) × CommandRatelimit :=
  let ga := optAcquire rl.global commandName now
  let ua := optAcquire rl.user userId now
  if rl.global.isSome then
    if optLimited ga.2 then
      (some (RLScope.global, optRemaining ga.2), ⟨ga.1, rl.guild, ua.1⟩)
    else
      evalGuildUser ga.1 rl.guild ua.1 ua.2 gid now
  else
    evalGuildUser (optConsume ga.1 ga.2 now) rl.guild ua.1 ua.2 gid now

/-- A command descriptor as the dispatcher reads it.  `run` is the
handler's outcome: `none` when it returns normally, `some cause` when it
throws `cause`. -/
structure Command where
  disabled : Bool
  superUserOnly : Bool
  premiumOnly : Bool
  helperUserOnly : Bool
  requiredBotPermissions : Option (List String)
  requiredUserPermissions : Option (List String)
  ratelimit : Option CommandRatelimit
  run : Option String
  deriving DecidableEq

/-- The parts of a command interaction the dispatcher consults.  `member`
is the guild member's permission set (`none` outside a guild /
when no member is attached); `appPermissions` is the bot's permission set
in the invocation context. -/
structure Interaction where
  commandName : String
  userId : String
  guild : Option String
  member : Option (List String)
  appPermissions : Option (List String)
  deriving DecidableEq

/-- The external collaborators `Main.utils.isOwner` and
`premiumUsers.isPremiumUser`, modelled as membership lists. -/
structure Env where
  owners : List String
  premiumUsers : List String
  deriving DecidableEq

/-- `set.has(...req)` — every required permission is in the set. -/
def hasAll (set : List String) (req : List String) : Bool :=
  req.all (fun p => set.contains p)

/-- `maybeSet?.has(...req)` — `undefined` is falsy, so an absent
permission set fails the check. -/
def optHasAll (set : Option (List String)) (req : List String) : Bool :=
  match set with
  | none => false
  | some s => hasAll s req

/-- `command?.flag` — `undefined` is falsy. -/
def optFlag (c : Option Command) (f : Command → Bool) : Bool :=
  match c with
  | none => false
  | some cmd => f cmd

/-- Outcome of one pass through `processCommandInteraction`: which reply
was sent, or that the handler was invoked (`ran`). -/
inductive Outcome where
  | rejectedDisabled
  | rejectedSuperUserOnly
  | rejectedPremiumOnly
  | rejectedHelperUserOnly
  | rejectedMissingBotPerms
  | rejectedMissingUserPerms
  | rateLimited (scope : RLScope) (remaining : Nat)
  | commandNotFound
  | ran
  deriving DecidableEq

/-- The tail of the dispatcher (source lines 255–271): run the handler if
a command was resolved, otherwise reply "Command could not be found." -/
def finalStep (command : Option Command) : Outcome :=
  match command with
  | some _ => Outcome.ran
  | none => Outcome.commandNotFound

/-- The embedding of `processCommandInteraction` (source lines 57–272):
registry lookup, the six-gate authorization chain, the rate-limit block,
then the handler/not-found tail.  The second component is the resolved
command's rate-limit policy state after the call (its managers are the
only state the function mutates). -/
def processCommandInteraction (env : Env) (registry : List (String × Command))
    (i : Interaction) (now : Nat) : Outcome × Option CommandRatelimit :=
  let command := lookupList registry i.commandName
  let isOwner := env.owners.contains i.userId
  let rl0 := command.bind Command.ratelimit
  if optFlag command Command.disabled && !isOwner then
    (Outcome.rejectedDisabled, rl0)
  else if optFlag command Command.superUserOnly && !isOwner then
    (Outcome.rejectedSuperUserOnly, rl0)
  else if optFlag command Command.premiumOnly && !(env.premiumUsers.contains i.userId) && !isOwner then
    (Outcome.rejectedPremiumOnly, rl0)
  else if optFlag command Command.helperUserOnly && !isOwner then
    (Outcome.rejectedHelperUserOnly, rl0)
  else if (command.bind Command.requiredBotPermissions).isSome
      && !(optHasAll i.appPermissions ((command.bind Command.requiredBotPermissions).getD [])) then
    (Outcome.rejectedMissingBotPerms, rl0)
  else if (command.bind Command.requiredUserPermissions).isSome && !isOwner
      && !(optHasAll i.member ((command.bind Command.requiredUserPermissions).getD [])) then
    (Outcome.rejectedMissingUserPerms, rl0)
  else
    match isOwner with
    | true => (finalStep command, rl0)
    | false =>
      match rl0 with
      | some rl =>
        let r := evalRatelimit rl i.commandName i.userId i.guild now
        match r.1 with
        | some (s, t) => (Outcome.rateLimited s t, some r.2)
        | none => (finalStep command, some r.2)
      | none => (finalStep command, rl0)

/-- The process-wide telemetry counters held by `GlobalStatsModel`. -/
structure Stats where
  commands_executed : Nat
  commands_failed : Nat
  deriving DecidableEq

/-- What the default interaction handler's `try` block settles to. -/
inductive DispatchOutcome where
  | completed (o : Outcome)
  | errored
  deriving DecidableEq

/-- The observable result of one dispatched application-command event:
the outcome, the telemetry counters afterwards, the error notice sent on
the catch path (if any was delivered), and the resolved command's
rate-limit policy state. -/
structure DispatchResult where
  outcome : DispatchOutcome
  stats : Stats
  reply : Option String
  ratelimitState : Option CommandRatelimit
  deriving DecidableEq

/-- The generic error notice of the catch path (source line 29); it is a
function of the command name only, never of the thrown cause. -/
def errorMessage (name : String) : String :=
  "An error occurred while running /" ++ name ++ " command."

/-- The body of the `try` block after the executed-counter update: run
`processCommandInteraction`; a handler invocation (`ran`) whose command
throws surfaces as the thrown cause, everything else returns normally.
The error payload also carries the policy state already mutated before
the throw. -/
def dispatchBody (env : Env) (registry : List (String × Command))
    (i : Interaction) (now : Nat) :
    Except (String × Option CommandRatelimit) (Outcome × Option CommandRatelimit) :=
  let r := processCommandInteraction env registry i now
  if r.1 = Outcome.ran then
    match (lookupList registry i.commandName).bind Command.run with
    | some cause => Except.error (cause, r.2)
    | none => Except.ok r
  else
    Except.ok r

/-- The embedding of the default interaction handler for
application-command events (source lines 10–44): increment the executed
counter first, run the dispatch body, and on a caught failure send the
generic notice best-effort (`.catch(() => \x7b\x7d)`, so a failing reply
is swallowed: `replyFails` only suppresses delivery) and increment the
failed counter unless in development mode. -/
def handleInteraction (devMode replyFails : Bool) (env : Env)
    (registry : List (String × Command)) (i : Interaction) (now : Nat)
    (stats : Stats) : DispatchResult :=
  let stats1 : Stats := { stats with commands_executed := stats.commands_executed + 1 }
  match dispatchBody env registry i now with
  | Except.ok (o, rl) =>
    { outcome := DispatchOutcome.completed o, stats := stats1, reply := none,
      ratelimitState := rl }
  | Except.error (_cause, rl) =>
    { outcome := DispatchOutcome.errored
      stats := if devMode then stats1
               else { stats1 with commands_failed := stats1.commands_failed + 1 }
      reply := if replyFails then none else some (errorMessage i.commandName)
      ratelimitState := rl }

/-- The count recorded for `id` in a possibly-absent scope manager (0
when the manager or the bucket is absent). -/
def countOf (m : Option RateLimitManager) (id : String) : Nat :=
  match m with
  | none => 0
  | some mgr =>
    match lookupList mgr.buckets id with
    | none => 0
    | some b => b.count

/-! ## Concrete fixtures used by witnesses and counterexamples -/

/-- An environment with no owners and no premium users. -/
def envNoOwners : Env := { owners := [], premiumUsers := [] }

/-- An environment where `o` is the designated owner. -/
def envOwner : Env := { owners := ["o"], premiumUsers := [] }

/-- A command descriptor with every gate disabled and a handler that
returns normally. -/
def baseCmd : Command :=
  { disabled := false, superUserOnly := false, premiumOnly := false,
    helperUserOnly := false, requiredBotPermissions := none,
    requiredUserPermissions := none, ratelimit := none, run := none }

/-- A user-scope manager: limit 2 per 100 ms window, no buckets yet. -/
def mgrUserFresh : RateLimitManager :=
  { limit := 2, windowDurationMs := 100, buckets := [] }

/-- A policy whose global and guild scopes are passive in the code's
sense (absent manager) and whose user scope is configured. -/
def rlPassiveGlobal : CommandRatelimit :=
  { global := none, guild := none, user := some mgrUserFresh }

/-- The command `c` carrying `rlPassiveGlobal`. -/
def cmdC1 : Command := { baseCmd with ratelimit := some rlPassiveGlobal }

/-- A plain invocation of `c` by non-owner `u` outside a guild. -/
def iC1 : Interaction :=
  { commandName := "c", userId := "u", guild := none, member := none,
    appPermissions := none }

/-- A global-scope manager whose bucket for `cmd` is exhausted: limit 1,
window 100 ms, bucket count 1 opened at t = 50. -/
def mgrGlobalLimited : RateLimitManager :=
  { limit := 1, windowDurationMs := 100,
    buckets := [("cmd", { count := 1, windowStart := 50 })] }

/-- A policy with a limited strict global scope and a fresh user scope. -/
def rlC2 : CommandRatelimit :=
  { global := some mgrGlobalLimited, guild := none, user := some mgrUserFresh }

/-- An invocation of an unknown command name. -/
def iUnknown : Interaction :=
  { commandName := "nope", userId := "u", guild := none, member := none,
    appPermissions := none }

/-- Zeroed telemetry counters. -/
def stats0 : Stats := { commands_executed := 0, commands_failed := 0 }

/-- A command requiring the bot permission `X`. -/
def cmdC4 : Command := { baseCmd with requiredBotPermissions := some ["X"] }

/-- The owner `o` invoking `b` in a context where the bot holds no
permissions. -/
def iC4 : Interaction :=
  { commandName := "b", userId := "o", guild := none, member := none,
    appPermissions := some [] }

/-- A command that is both disabled and owner-only. -/
def cmdC6 : Command := { baseCmd with disabled := true, superUserOnly := true }

/-- Non-owner `u` invoking `d`. -/
def iC6 : Interaction :=
  { commandName := "d", userId := "u", guild := none, member := none,
    appPermissions := none }

/-- A command whose handler throws `boom`. -/
def cmdC7 : Command := { baseCmd with run := some "boom" }

/-- Non-owner `u` invoking `c` (used where `c` is bound to `cmdC7`). -/
def iC7 : Interaction :=
  { commandName := "c", userId := "u", guild := none, member := none,
    appPermissions := none }

/-- A command declaring a required user permission. -/
def cmdC10 : Command :=
  { baseCmd with requiredUserPermissions := some ["MANAGE_GUILD"] }

/-- Non-owner `u` invoking `p` with no guild member attached (a direct
message). -/
def iC10 : Interaction :=
  { commandName := "p", userId := "u", guild := none, member := none,
    appPermissions := none }

/-! ## Shared lemmas about the rate-limit state -/

theorem finalStep_cases (c : Option Command) :
    finalStep c = Outcome.ran ∨ finalStep c = Outcome.commandNotFound := by
  cases c <;> simp [finalStep]

theorem lookup_updateList_self {α : Type} (l : List (String × α)) (key : String) (val : α) :
    lookupList (updateList l key val) key = some val := by
  induction l with
  | nil => simp [updateList, lookupList]
  | cons hd tl ih =>
    obtain ⟨k, v⟩ := hd
    by_cases h : k = key
    · simp [updateList, h, lookupList]
    · simp [updateList, h, lookupList, ih]

theorem lookup_updateList_ne {α : Type} (l : List (String × α)) (key key' : String) (val : α)
    (h : key' ≠ key) : lookupList (updateList l key val) key' = lookupList l key' := by
  induction l with
  | nil => simp [updateList, lookupList, h.symm]
  | cons hd tl ih =>
    obtain ⟨k, v⟩ := hd
    by_cases hk : k = key
    · subst hk
      simp [updateList, lookupList, h.symm]
    · simp [updateList, hk, lookupList, ih]

theorem refresh_count_le (b : Bucket) (d now : Nat) : (b.refresh d now).count ≤ b.count := by
  unfold Bucket.refresh
  split
  · exact Nat.zero_le _
  · exact Nat.le_refl _

theorem acquire_count_le (mgr : RateLimitManager) (id id' : String) (now : Nat) :
    countOf (some (mgr.acquire id now).1) id' ≤ countOf (some mgr) id' := by
  by_cases h : id' = id
  · subst h
    simp only [RateLimitManager.acquire, countOf, lookup_updateList_self]
    cases hb : lookupList mgr.buckets id' with
    | none =>
      have := refresh_count_le ({ count := 0, windowStart := now } : Bucket)
        mgr.windowDurationMs now
      simpa using this
    | some b =>
      have := refresh_count_le b mgr.windowDurationMs now
      simpa using this
  · simp only [RateLimitManager.acquire, countOf, lookup_updateList_ne _ _ _ _ h]
    exact Nat.le_refl _

theorem optAcquire_count_le (m : Option RateLimitManager) (id id' : String) (now : Nat) :
    countOf (optAcquire m id now).1 id' ≤ countOf m id' := by
  cases m with
  | none => simp [optAcquire, countOf]
  | some mgr => simpa [optAcquire] using acquire_count_le mgr id id' now

theorem optConsume_none (v : Option RateLimit) (now : Nat) :
    optConsume none v now = none := by
  cases v <;> rfl

theorem evalUser_post (g gu u : Option RateLimitManager) (uv : Option RateLimit) (now : Nat) :
    (evalUser g gu u uv now).2 = ⟨g, gu, u⟩ := by
  cases u with
  | none => simp [evalUser, optConsume_none]
  | some mgr =>
    unfold evalUser
    simp only [Option.isSome_some, if_true]
    split <;> rfl

theorem evalGuildUser_post (g gum u : Option RateLimitManager) (uv : Option RateLimit)
    (gid : Option String) (now : Nat) :
    (evalGuildUser g gum u uv gid now).2.global = g ∧
    (evalGuildUser g gum u uv gid now).2.user = u ∧
    ((evalGuildUser g gum u uv gid now).2.guild = gum ∨
      ∃ gId, gid = some gId ∧
        (evalGuildUser g gum u uv gid now).2.guild = (optAcquire gum gId now).1) := by
  cases gid with
  | none => simp [evalGuildUser, evalUser_post]
  | some gId =>
    cases gum with
    | none =>
      refine ⟨?_, ?_, Or.inl ?_⟩ <;>
        simp [evalGuildUser, optAcquire, optConsume_none, evalUser_post]
    | some mgr =>
      unfold evalGuildUser
      simp only [Option.isSome_some, if_true]
      split
      · exact ⟨rfl, rfl, Or.inr ⟨gId, rfl, rfl⟩⟩
      · exact ⟨(evalUser_post _ _ _ _ _).symm ▸ rfl, by simp [evalUser_post],
          Or.inr ⟨gId, rfl, by simp [evalUser_post, optAcquire]⟩⟩

theorem evalRatelimit_post (rl : CommandRatelimit) (cname uid : String)
    (gid : Option String) (now : Nat) :
    (evalRatelimit rl cname uid gid now).2.global = (optAcquire rl.global cname now).1 ∧
    (evalRatelimit rl cname uid gid now).2.user = (optAcquire rl.user uid now).1 ∧
    ((evalRatelimit rl cname uid gid now).2.guild = rl.guild ∨
      ∃ gId, gid = some gId ∧
        (evalRatelimit rl cname uid gid now).2.guild = (optAcquire rl.guild gId now).1) := by
  cases hg : rl.global with
  | none =>
    unfold evalRatelimit
    rw [hg]
    simpa [optAcquire, optConsume_none] using
      evalGuildUser_post none rl.guild (optAcquire rl.user uid now).1
        (optAcquire rl.user uid now).2 gid now
  | some mgr =>
    unfold evalRatelimit
    rw [hg]
    simp only [Option.isSome_some, if_true]
    split
    · exact ⟨rfl, rfl, Or.inl rfl⟩
    · simpa [optAcquire] using
        evalGuildUser_post (some (mgr.acquire cname now).1) rl.guild
          (optAcquire rl.user uid now).1 (optAcquire rl.user uid now).2 gid now

/-! ## Claim theorems -/

/-- C5: a rate-limit policy evaluation never increments any scope's
bucket count — for every scope (in particular every strict configured
scope that passes its check) and every identifier, the count after the
evaluation is at most the count before.  The only change `acquire` can
make to a count is the window reset to 0 mandated by the spec's expiry
invariant; no `consume` ever fires on a configured scope, so a
strict-only scope never accumulates count through the dispatcher path. -/
theorem c5_strict_scope_never_incremented (rl : CommandRatelimit) (cname uid : String)
    (gid : Option String) (now : Nat) :
    (∀ id, countOf (evalRatelimit rl cname uid gid now).2.global id ≤ countOf rl.global id) ∧
    (∀ id, countOf (evalRatelimit rl cname uid gid now).2.guild id ≤ countOf rl.guild id) ∧
    (∀ id, countOf (evalRatelimit rl cname uid gid now).2.user id ≤ countOf rl.user id) := by
  obtain ⟨hgl, hus, hgu⟩ := evalRatelimit_post rl cname uid gid now
  refine ⟨fun id => ?_, fun id => ?_, fun id => ?_⟩
  · rw [hgl]; exact optAcquire_count_le _ _ _ _
  · rcases hgu with h | ⟨gId, _, h⟩
    · rw [h]
    · rw [h]; exact optAcquire_count_le _ _ _ _
  · rw [hus]; exact optAcquire_count_le _ _ _ _

/-- C1 (as stated, refuted): the command `c` configures its global scope
as passive in the code's sense — the policy's global manager is absent,
so the global branch runs `GlobalRateLimit?.consume()` — yet a policy
evaluation by the non-owner `u` does not increment the passive global
scope's count by 1: the handler runs and the global count stays 0 (the
optional-chained consume is a no-op on the absent acquire view). -/
theorem c1_counterexample :
    (processCommandInteraction envNoOwners [("c", cmdC1)] iC1 0).1 = Outcome.ran ∧
    ¬ ((processCommandInteraction envNoOwners [("c", cmdC1)] iC1 0).2.map
        (fun rl => countOf rl.global "c") =
      some (countOf rlPassiveGlobal.global "c" + 1)) := by
  decide

/-- C1 (amended): a scope that is not strict is one whose manager is
absent from the policy; for such a scope the unconditional consume call
is optional-chained on an absent acquire result and is a no-op, so the
scope stays untracked — no bucket is created and its count increases by
0, not 1, on every policy evaluation. -/
theorem c1_passive_scope_untracked (rl : CommandRatelimit) (cname uid : String)
    (gid : Option String) (now : Nat) :
    (rl.global = none → (evalRatelimit rl cname uid gid now).2.global = none) ∧
    (rl.guild = none → (evalRatelimit rl cname uid gid now).2.guild = none) ∧
    (rl.user = none → (evalRatelimit rl cname uid gid now).2.user = none) := by
  obtain ⟨hgl, hus, hgu⟩ := evalRatelimit_post rl cname uid gid now
  refine ⟨fun h => ?_, fun h => ?_, fun h => ?_⟩
  · rw [hgl, h]; rfl
  · rcases hgu with h2 | ⟨gId, _, h2⟩
    · rw [h2, h]
    · rw [h2, h]; rfl
  · rw [hus, h]; rfl

/-- C1 witness: evaluating `rlPassiveGlobal` leaves its passive global
scope without any bucket state. -/
theorem c1_witness :
    (evalRatelimit rlPassiveGlobal "c" "u" none 0).2.global = none :=
  (c1_passive_scope_untracked rlPassiveGlobal "c" "u" none 0).1 rfl

/-- C2 (as stated, refuted): with the strict global scope limited, the
evaluation does reject with the global scope and its remaining time (90
ms), but the user scope is still acquired during that call — its bucket
map changes (a fresh bucket is lazily created for `u`), contradicting
"the user scope is not evaluated (no acquire, hence no lazy bucket
creation)". -/
theorem c2_counterexample :
    (evalRatelimit rlC2 "cmd" "u" none 60).1 = some (RLScope.global, 90) ∧
    (evalRatelimit rlC2 "cmd" "u" none 60).2.user ≠ rlC2.user := by
  decide

/-- C2 (amended): when the strict global scope is limited, the evaluation
stops with a rejection carrying the global scope and its remaining time,
and the guild scope is neither acquired nor consumed; the user scope,
however, has already been acquired up front (lazy creation / window
reset), though it is not consumed — the post state is exactly the
acquire-only state on global and user and the untouched guild state. -/
theorem c2_global_limited_short_circuit (rl : CommandRatelimit) (gm : RateLimitManager)
    (cname uid : String) (gid : Option String) (now : Nat)
    (hg : rl.global = some gm)
    (hlim : (gm.acquire cname now).2.limited = true) :
    evalRatelimit rl cname uid gid now =
      (some (RLScope.global, (gm.acquire cname now).2.remainingTime),
       ⟨some (gm.acquire cname now).1, rl.guild, (optAcquire rl.user uid now).1⟩) := by
  unfold evalRatelimit
  rw [hg]
  simp [optAcquire, optLimited, optRemaining, hlim]

/-- C2 witness: the short-circuit theorem applied to the concrete limited
policy `rlC2`. -/
theorem c2_witness :
    evalRatelimit rlC2 "cmd" "u" none 60 =
      (some (RLScope.global, (mgrGlobalLimited.acquire "cmd" 60).2.remainingTime),
       ⟨some (mgrGlobalLimited.acquire "cmd" 60).1, rlC2.guild,
        (optAcquire rlC2.user "u" 60).1⟩) :=
  c2_global_limited_short_circuit rlC2 mgrGlobalLimited "cmd" "u" none 60 rfl (by decide)

/-- C6: a command with `disabled = true` and `superUserOnly = true`
invoked by a non-owner is rejected by the disabled check — the first
failing check in the fixed order — and never by the owner-only check. -/
theorem c6_disabled_before_superuser (env : Env) (registry : List (String × Command))
    (i : Interaction) (now : Nat) (cmd : Command)
    (hlook : lookupList registry i.commandName = some cmd)
    (hdis : cmd.disabled = true)
    (_hsup : cmd.superUserOnly = true)
    (howner : env.owners.contains i.userId = false) :
    (processCommandInteraction env registry i now).1 = Outcome.rejectedDisabled ∧
    (processCommandInteraction env registry i now).1 ≠ Outcome.rejectedSuperUserOnly := by
  have h : (processCommandInteraction env registry i now).1 = Outcome.rejectedDisabled := by
    unfold processCommandInteraction
    rw [hlook, howner]
    simp [optFlag, hdis]
  exact ⟨h, by rw [h]; intro hc; exact Outcome.noConfusion hc⟩

/-- C6 witness: the non-owner `u` invoking the disabled, owner-only
command `d` is rejected by the disabled check. -/
theorem c6_witness :
    (processCommandInteraction envNoOwners [("d", cmdC6)] iC6 0).1 =
        Outcome.rejectedDisabled ∧
    (processCommandInteraction envNoOwners [("d", cmdC6)] iC6 0).1 ≠
        Outcome.rejectedSuperUserOnly :=
  c6_disabled_before_superuser envNoOwners [("d", cmdC6)] iC6 0 cmdC6
    (by decide) (by decide) (by decide) (by decide)

/-- C8: when the command name is absent from the registry, the dispatch
rejects with the command-not-found message, no authorization check
fires, the handler is not invoked, and no rate-limit policy state exists
or is touched (the returned policy state is `none`). -/
theorem c8_unknown_command (env : Env) (registry : List (String × Command))
    (i : Interaction) (now : Nat)
    (hlook : lookupList registry i.commandName = none) :
    processCommandInteraction env registry i now = (Outcome.commandNotFound, none) := by
  unfold processCommandInteraction
  rw [hlook]
  cases h : env.owners.contains i.userId <;> simp [optFlag, finalStep]

/-- C8 witness: dispatching the unknown name `nope` against an empty
registry yields exactly the not-found rejection with no state. -/
theorem c8_witness :
    processCommandInteraction envNoOwners [] iUnknown 0 =
      (Outcome.commandNotFound, none) :=
  c8_unknown_command envNoOwners [] iUnknown 0 rfl

/-- C9: an owner's invocation skips the rate-limiting step entirely — the
resolved command's rate-limit policy state after the call equals its
state before it, so no scope (strict or passive) is acquired or
consumed. -/
theorem c9_owner_skips_ratelimit (env : Env) (registry : List (String × Command))
    (i : Interaction) (now : Nat)
    (h : env.owners.contains i.userId = true) :
    (processCommandInteraction env registry i now).2 =
      (lookupList registry i.commandName).bind Command.ratelimit := by
  unfold processCommandInteraction
  rw [h]
  simp
  split <;> rfl

/-- C9 witness: the owner `o` invoking the rate-limited command `c`
leaves the policy state exactly as resolved from the registry. -/
theorem c9_witness :
    (processCommandInteraction envOwner [("c", cmdC1)]
        { commandName := "c", userId := "o", guild := none, member := none,
          appPermissions := none } 0).2 =
      (lookupList [("c", cmdC1)] "c").bind Command.ratelimit :=
  c9_owner_skips_ratelimit envOwner [("c", cmdC1)]
    { commandName := "c", userId := "o", guild := none, member := none,
      appPermissions := none } 0 (by decide)

/-- C10: a non-owner invoking a command that declares
`requiredUserPermissions` in a context with no guild member (all earlier
gates passing) is always rejected by the user-permissions check —
`member?.permissions.has(...)` is undefined, hence falsy, for every
required list, regardless of any permissions the caller holds
elsewhere. -/
theorem c10_no_member_rejects (env : Env) (registry : List (String × Command))
    (i : Interaction) (now : Nat) (cmd : Command) (req : List String)
    (hlook : lookupList registry i.commandName = some cmd)
    (howner : env.owners.contains i.userId = false)
    (hdis : cmd.disabled = false) (hsup : cmd.superUserOnly = false)
    (hprem : cmd.premiumOnly = false) (hhelp : cmd.helperUserOnly = false)
    (hbot : cmd.requiredBotPermissions = none)
    (huser : cmd.requiredUserPermissions = some req)
    (hmem : i.member = none) :
    (processCommandInteraction env registry i now).1 =
      Outcome.rejectedMissingUserPerms := by
  unfold processCommandInteraction
  rw [hlook, howner]
  simp [optFlag, hdis, hsup, hprem, hhelp, hbot, huser, hmem, optHasAll]

/-- C10 witness: non-owner `u` invoking `p` (which requires
`MANAGE_GUILD`) with no member attached is rejected by the
user-permissions check. -/
theorem c10_witness :
    (processCommandInteraction envNoOwners [("p", cmdC10)] iC10 0).1 =
      Outcome.rejectedMissingUserPerms :=
  c10_no_member_rejects envNoOwners [("p", cmdC10)] iC10 0 cmdC10 ["MANAGE_GUILD"]
    (by decide) (by decide) (by decide) (by decide) (by decide) (by decide)
    (by decide) (by decide) (by decide)

/-- C4 (as stated, refuted): the owner `o` invoking `b`, which requires
the bot permission `X` in a context where the bot holds no permissions,
is rejected by the requiredBotPermissions check — so not every
authorization step is bypassed for owners. -/
theorem c4_counterexample :
    (processCommandInteraction envOwner [("b", cmdC4)] iC4 0).1 =
      Outcome.rejectedMissingBotPerms := by
  decide

/-- C4 (amended): an owner caller is never rejected by the five
owner-gated checks — disabled, superUserOnly, premiumOnly,
helperUserOnly and requiredUserPermissions; only the
requiredBotPermissions check applies regardless of ownership. -/
theorem c4_owner_bypasses_five_checks (env : Env) (registry : List (String × Command))
    (i : Interaction) (now : Nat)
    (h : env.owners.contains i.userId = true) :
    (processCommandInteraction env registry i now).1 ≠ Outcome.rejectedDisabled ∧
    (processCommandInteraction env registry i now).1 ≠ Outcome.rejectedSuperUserOnly ∧
    (processCommandInteraction env registry i now).1 ≠ Outcome.rejectedPremiumOnly ∧
    (processCommandInteraction env registry i now).1 ≠ Outcome.rejectedHelperUserOnly ∧
    (processCommandInteraction env registry i now).1 ≠ Outcome.rejectedMissingUserPerms := by
  unfold processCommandInteraction
  rw [h]
  simp
  split
  · simp
  · rcases finalStep_cases (lookupList registry i.commandName) with hf | hf <;>
      simp [hf]

/-- C4 witness: the amended bypass applied to the owner `o` invoking `b`
(the very context where the bot-permission check does fire). -/
theorem c4_witness :
    (processCommandInteraction envOwner [("b", cmdC4)] iC4 0).1 ≠
        Outcome.rejectedDisabled ∧
    (processCommandInteraction envOwner [("b", cmdC4)] iC4 0).1 ≠
        Outcome.rejectedSuperUserOnly ∧
    (processCommandInteraction envOwner [("b", cmdC4)] iC4 0).1 ≠
        Outcome.rejectedPremiumOnly ∧
    (processCommandInteraction envOwner [("b", cmdC4)] iC4 0).1 ≠
        Outcome.rejectedHelperUserOnly ∧
    (processCommandInteraction envOwner [("b", cmdC4)] iC4 0).1 ≠
        Outcome.rejectedMissingUserPerms :=
  c4_owner_bypasses_five_checks envOwner [("b", cmdC4)] iC4 0 (by decide)

/-- C3 (as stated, refuted): a dispatched event whose command name is
unknown — which is rejected with the not-found message and never reaches
the executing state — still increments the process-wide executed
counter from 0 to 1. -/
theorem c3_counterexample :
    (handleInteraction false false envNoOwners [] iUnknown 0 stats0).outcome =
        DispatchOutcome.completed Outcome.commandNotFound ∧
    (handleInteraction false false envNoOwners [] iUnknown 0 stats0).stats.commands_executed =
        stats0.commands_executed + 1 := by
  decide

/-- C3 (amended): the executed counter is incremented exactly once for
every dispatched application-command event, before command resolution —
rejected events (command not found, authorization denied, rate limited)
and errored events increment it just like successful executions. -/
theorem c3_executed_always_increments (devMode replyFails : Bool) (env : Env)
    (registry : List (String × Command)) (i : Interaction) (now : Nat) (stats : Stats) :
    (handleInteraction devMode replyFails env registry i now stats).stats.commands_executed =
      stats.commands_executed + 1 := by
  unfold handleInteraction
  cases hb : dispatchBody env registry i now with
  | ok v =>
    obtain ⟨o, rl⟩ := v
    simp
  | error e =>
    obtain ⟨c, rl⟩ := e
    cases devMode <;> simp

/-- C7: when the resolved command's handler throws, the failure is caught
at the dispatcher boundary (the handler returns a normal `errored`
result rather than propagating), the user-facing notice is the generic
`errorMessage` of the command name alone — the same for every thrown
cause, so the internal cause never leaks — a failing reply is swallowed
(`replyFails` only suppresses delivery, changing nothing else), and the
failure counter is incremented if and only if the process is not in
development mode; the executed counter was already incremented. -/
theorem c7_handler_failure_contained (devMode replyFails : Bool) (env : Env)
    (registry : List (String × Command)) (i : Interaction) (now : Nat) (stats : Stats)
    (cmd : Command) (cause : String)
    (hlook : lookupList registry i.commandName = some cmd)
    (hrun : cmd.run = some cause)
    (hran : (processCommandInteraction env registry i now).1 = Outcome.ran) :
    (handleInteraction devMode replyFails env registry i now stats).outcome =
        DispatchOutcome.errored ∧
    (handleInteraction devMode replyFails env registry i now stats).reply =
        (if replyFails then none else some (errorMessage i.commandName)) ∧
    (handleInteraction devMode replyFails env registry i now stats).stats.commands_failed =
        (if devMode then stats.commands_failed else stats.commands_failed + 1) ∧
    (handleInteraction devMode replyFails env registry i now stats).stats.commands_executed =
        stats.commands_executed + 1 := by
  have hb : dispatchBody env registry i now =
      Except.error (cause, (processCommandInteraction env registry i now).2) := by
    unfold dispatchBody
    simp [hran, hlook, hrun]
  unfold handleInteraction
  rw [hb]
  cases devMode <;> cases replyFails <;> simp

/-- C7 witness: the non-owner `u` invoking `c`, whose handler throws
`boom`, yields a contained errored dispatch with the generic notice and
both counters incremented (development mode off, reply succeeding). -/
theorem c7_witness :
    (handleInteraction false false envNoOwners [("c", cmdC7)] iC7 0 stats0).outcome =
        DispatchOutcome.errored ∧
    (handleInteraction false false envNoOwners [("c", cmdC7)] iC7 0 stats0).reply =
        (if false then none else some (errorMessage iC7.commandName)) ∧
    (handleInteraction false false envNoOwners [("c", cmdC7)] iC7 0 stats0).stats.commands_failed =
        (if false then stats0.commands_failed else stats0.commands_failed + 1) ∧
    (handleInteraction false false envNoOwners [("c", cmdC7)] iC7 0 stats0).stats.commands_executed =
        stats0.commands_executed + 1 :=
  c7_handler_failure_contained false false envNoOwners [("c", cmdC7)] iC7 0 stats0
    cmdC7 "boom" (by decide) (by decide) (by decide)

end CB
